import Mathlib

/-!
# Poaching-Detection-App: relay backend (`index.js`) and upload client (`App.js`)

A shallow embedding of the two source files.

* JavaScript strings are `String` (or `List Char` where the code works on the
  characters); `.length` counts UTF-16 code units.
* The hosted services (speech-to-text, chat completion), `path.extname`, the
  bytes of the uploaded file and the Unicode part of `toLowerCase` are fields
  of `Upstream`: the handlers are functions of the request and of what these
  collaborators answer.
* A handler run is the list of outward calls it makes, in order, and the HTTP
  response it sends. File-system calls on the temporary upload are recorded in
  the trace and taken to complete.
-/

namespace PoachingDetection

/-! ## JavaScript string primitives -/

/-- White space of ECMAScript (`WhiteSpace` and `LineTerminator`): what `\s`
matches in a regular expression without the `u` flag and what `trim` strips. -/
def isJsWhiteSpace (c : Char) : Bool :=
  let n := c.toNat
  (9 ≤ n && n ≤ 13) || n == 32 || n == 160 || n == 5760 || (8192 ≤ n && n ≤ 8202) ||
  n == 8232 || n == 8233 || n == 8239 || n == 8287 || n == 12288 || n == 65279

/-- The `length` of a JavaScript string: its number of UTF-16 code units. -/
def utf16Length (s : List Char) : Nat :=
  (s.map fun c => if c.toNat < 65536 then 1 else 2).sum

/-- `String.prototype.trim`. -/
def trim (s : List Char) : List Char :=
  ((s.dropWhile isJsWhiteSpace).reverse.dropWhile isJsWhiteSpace).reverse

/-- `String.prototype.toLowerCase`. On a string of ASCII characters only it maps
`A`..`Z` to `a`..`z`; the Unicode case mapping of any other string is the
parameter `unicodeLower`. -/
def toLowerCase (unicodeLower : List Char → List Char) (s : List Char) : List Char :=
  if s.all (fun c => c.toNat < 128) then s.map Char.toLower else unicodeLower s

/-- The pieces of `s` between the characters that satisfy `p`, empty pieces
included; a string without such a character is one piece. -/
def splitWhere (p : Char → Bool) : List Char → List (List Char)
  | [] => [[]]
  | c :: cs =>
    if p c then [] :: splitWhere p cs
    else
      match splitWhere p cs with
      | piece :: pieces => (c :: piece) :: pieces
      | [] => [[c]]

/-- `String.prototype.split` with a separator of one character. -/
def split (sep : Char) (s : List Char) : List (List Char) :=
  splitWhere (fun c => c == sep) s

/-- `Buffer.prototype.toString('base64')`: the 64 digits. -/
def base64Digits : List Char :=
  "ABCDEFGHIJKLMNOPQRSTUVWXYZabcdefghijklmnopqrstuvwxyz0123456789+/".toList

/-- The base64 digit of a 6-bit group. -/
def base64Digit (n : Nat) : Char := base64Digits.getD (n % 64) 'A'

/-- `Buffer.prototype.toString('base64')` on a list of bytes. -/
def base64 : List Nat → List Char
  | [] => []
  | [a] =>
    let a := a % 256
    [base64Digit (a / 4), base64Digit (a % 4 * 16), '=', '=']
  | [a, b] =>
    let a := a % 256
    let b := b % 256
    [base64Digit (a / 4), base64Digit (a % 4 * 16 + b / 16), base64Digit (b % 16 * 4), '=']
  | a :: b :: c :: rest =>
    let a := a % 256
    let b := b % 256
    let c := c % 256
    base64Digit (a / 4) :: base64Digit (a % 4 * 16 + b / 16) ::
      base64Digit (b % 16 * 4 + c / 64) :: base64Digit (c % 64) :: base64 rest

/-! ## The rejection filter of `/analyze-audio` -/

/-- The character class `[\d\s.cm]`. -/
def inDigitSpaceDotCmClass (c : Char) : Bool :=
  c.isDigit || isJsWhiteSpace c || c == '.' || c == 'c' || c == 'm'

/-- `/^[\d\s.cm]+$/.test(s)`: one or more characters, all of the class. -/
def matchesDigitSpaceDotCm (s : List Char) : Bool :=
  !s.isEmpty && s.all inDigitSpaceDotCmClass

/-- The filler utterances listed in the filter. -/
def fillerUtterances : List (List Char) :=
  ["you".toList, "uh".toList, "uh uh".toList, "hello".toList, "hi".toList,
   "hey, oh, oh oh you".toList]

/-- `isBadTranscript` of the source, as a function of `cleanedTranscript`. -/
def isBadTranscript (cleanedTranscript : List Char) : Bool :=
  decide (utf16Length cleanedTranscript < 8) ||
  matchesDigitSpaceDotCm cleanedTranscript ||
  fillerUtterances.contains cleanedTranscript ||
  decide ((split ' ' cleanedTranscript).length ≤ 2)

/-- The maximal runs of non-white-space characters of `s`. -/
def whitespaceTokens (s : List Char) : List (List Char) :=
  (splitWhere isJsWhiteSpace s).filter fun piece => !piece.isEmpty

/-- The rejection filter in the words of the specification: shorter than 8
characters, or only digits, white space, periods and the letters of "cm", or one
of the filler utterances, or at most two whitespace-delimited tokens. -/
def specRejects (c : List Char) : Bool :=
  decide (utf16Length c < 8) ||
  c.all inDigitSpaceDotCmClass ||
  fillerUtterances.contains c ||
  decide ((whitespaceTokens c).length ≤ 2)

/-! ## Requests, upstream calls and responses of the relay backend -/

/-- The file object multer attaches to the request. -/
structure UploadedFile where
  path : String
  mimetype : String
  originalname : String
  deriving DecidableEq, Repr

/-- What a handler reads of the request: `req.file`, `req.body.latitude` and
`req.body.longitude`. -/
structure Request where
  file : Option UploadedFile
  latitude : Option String
  longitude : Option String
  deriving DecidableEq, Repr

/-- One element of the `content` array of a chat message. -/
inductive ContentPart where
  | text (text : String)
  | imageUrl (url : String)
  deriving DecidableEq, Repr

/-- The `content` of a chat message: a string or an array of parts. -/
inductive Content where
  | str (s : String)
  | parts (ps : List ContentPart)
  deriving DecidableEq, Repr

/-- A chat message. -/
structure ChatMessage where
  role : String
  content : Content
  deriving DecidableEq, Repr

/-- The argument of `openai.chat.completions.create`. -/
structure ChatRequest where
  model : String
  messages : List ChatMessage
  max_tokens : Nat
  temperature : Option ℚ
  deriving DecidableEq

/-- The outward calls of the handlers. -/
inductive Effect where
  | readFileSync (path : String)
  | renameSync (oldPath newPath : String)
  | createReadStream (path : String)
  | transcriptionsCreate (model file response_format : String)
  | chatCompletionsCreate (request : ChatRequest)
  | unlinkSync (path : String)
  | consoleError (label message : String)
  deriving DecidableEq

/-- The collaborators of the handlers. A thrown error is `Except.error` with
its `message`; the answer of a chat completion is
`response.choices?.[0]?.message?.content`, absent or present. -/
structure Upstream where
  readFileSync : String → List Nat
  transcribe : String → Except String String
  chat : ChatRequest → Except String (Option String)
  extname : String → String
  unicodeLower : List Char → List Char

/-- A JSON object with string values, as serialised on the wire. -/
abbrev JsonObject := List (String × String)

/-- `JSON.stringify` of an object literal: a property whose value is
`undefined` is left out. -/
def jsonObject (fields : List (String × Option String)) : JsonObject :=
  fields.filterMap fun kv => kv.2.map fun v => (kv.1, v)

/-- The response sent with `res.status(..).json(..)`; the status is 200 when
`res.json` is called alone. -/
structure HttpResponse where
  status : Nat
  body : JsonObject
  deriving DecidableEq, Repr

/-- A run of a handler: its outward calls in order and its response. -/
structure Run where
  trace : List Effect
  response : HttpResponse

/-- The chat completions requested in a trace, in order. -/
def chatCalls (trace : List Effect) : List ChatRequest :=
  trace.filterMap fun e =>
    match e with
    | .chatCompletionsCreate request => some request
    | _ => none

/-! ## `POST /analyze` -/

/-- The `prompt` of the image endpoint. -/
def prompt : String :=
  "You are a wildlife expert specializing in animal behavior and health. Analyze the animal shown and first say either The animal is in distress! OR say The animal is not in distress Then describe why their behavior or condition appears normal or abnormal. Explain your reasoning very briefly and in plain language."

/-- The chat completion requested for an image. -/
def imageRequest (fileData : List Nat) : ChatRequest :=
  { model := "gpt-4o"
    messages :=
      [{ role := "user"
         content := .parts
           [.text prompt,
            .imageUrl ("data:image/jpeg;base64," ++ String.mk (base64 fileData))] }]
    max_tokens := 300
    temperature := none }

/-- The handler of `POST /analyze`. -/
def analyze (up : Upstream) (req : Request) : Run :=
  match req.file with
  | none => ⟨[], ⟨400, jsonObject [("error", some "No file uploaded")]⟩⟩
  | some file =>
    let filePath := file.path
    let fileData := up.readFileSync filePath
    let latitude := req.latitude
    let longitude := req.longitude
    let request := imageRequest fileData
    match up.chat request with
    | .error message =>
      ⟨[.readFileSync filePath, .chatCompletionsCreate request,
        .consoleError "Error analyzing image:" message],
       ⟨500, jsonObject [("error", some "Failed to analyze image"), ("details", some message)]⟩⟩
    | .ok content =>
      let analysis := content.getD "No analysis returned."
      ⟨[.readFileSync filePath, .chatCompletionsCreate request, .unlinkSync filePath],
       ⟨200, jsonObject
          [("analysis", some analysis), ("latitude", latitude), ("longitude", longitude)]⟩⟩

/-! ## `POST /analyze-audio` -/

/-- The `ext` of the audio endpoint. `extname(..) || '.mp3'` takes `'.mp3'`
when `extname` answers the empty string. -/
def ext (extname : String → String) (file : UploadedFile) : String :=
  if file.mimetype = "audio/mpeg" then ".mp3"
  else if file.mimetype = "audio/wav" then ".wav"
  else if extname file.originalname ≠ "" then extname file.originalname
  else ".mp3"

/-- The `renamedPath` of the audio endpoint. -/
def renamedPath (extname : String → String) (file : UploadedFile) : String :=
  file.path ++ ext extname file

/-- The `cleanedTranscript` of the audio endpoint. -/
def cleanedTranscript (up : Upstream) (transcript : String) : List Char :=
  toLowerCase up.unicodeLower (trim transcript.toList)

/-- The analysis sent for a rejected transcript. -/
def unclearAudioMessage : String :=
  "The audio was too short, unclear, or not recognized as an animal sound. Please upload a different recording."

/-- The system instruction of the classification call. -/
def systemInstruction : String :=
  "You are a wildlife expert. Respond with only one of the following: This behavior is normal, no distress recognized. OR This behavior is abnormal, the animal is in distress!"

/-- The chat completion requested for a transcript. -/
def classificationRequest (transcript : String) : ChatRequest :=
  { model := "gpt-4o"
    messages :=
      [{ role := "system", content := .str systemInstruction },
       { role := "user", content := .str ("Animal vocalization transcription: " ++ transcript) }]
    max_tokens := 300
    temperature := some (1 / 2) }

/-- The handler of `POST /analyze-audio`. -/
def analyzeAudio (up : Upstream) (req : Request) : Run :=
  match req.file with
  | none => ⟨[], ⟨400, jsonObject [("error", some "No audio file uploaded")]⟩⟩
  | some file =>
    let originalPath := file.path
    let renamed := renamedPath up.extname file
    let started : List Effect :=
      [.renameSync originalPath renamed, .createReadStream renamed,
       .transcriptionsCreate "whisper-1" renamed "text"]
    match up.transcribe renamed with
    | .error message =>
      ⟨started ++ [.consoleError "Error analyzing audio:" message],
       ⟨500, jsonObject [("error", some "Failed to analyze audio"), ("details", some message)]⟩⟩
    | .ok transcript =>
      if isBadTranscript (cleanedTranscript up transcript) then
        ⟨started ++ [.unlinkSync renamed],
         ⟨200, jsonObject [("analysis", some unclearAudioMessage)]⟩⟩
      else
        let request := classificationRequest transcript
        match up.chat request with
        | .error message =>
          ⟨started ++ [.chatCompletionsCreate request,
            .consoleError "Error analyzing audio:" message],
           ⟨500, jsonObject
              [("error", some "Failed to analyze audio"), ("details", some message)]⟩⟩
        | .ok content =>
          let analysisText := content.getD "No analysis returned."
          let latitude := req.latitude
          let longitude := req.longitude
          ⟨started ++ [.chatCompletionsCreate request, .unlinkSync renamed],
           ⟨200, jsonObject
              [("analysis", some analysisText), ("latitude", latitude),
               ("longitude", longitude)]⟩⟩

/-- The scan of `path.extname` (Node, POSIX): the loop state. `-1` is "not
seen yet", as in the library. -/
structure ExtnameScan where
  startDot : Int
  startPart : Int
  endAt : Int
  matchedSlash : Bool
  preDotState : Int
  deriving DecidableEq, Repr

/-- The loop of `path.extname`, from index `i - 1` down to `0`, leaving at the
first separator that follows the last path component. -/
def extnameLoop (path : List Char) : Nat → ExtnameScan → ExtnameScan
  | 0, s => s
  | i + 1, s =>
    let code := path.getD i ' '
    if code = '/' then
      if !s.matchedSlash then { s with startPart := (i : Int) + 1 }
      else extnameLoop path i s
    else
      let s := if s.endAt = -1 then { s with matchedSlash := false, endAt := (i : Int) + 1 } else s
      let s :=
        if code = '.' then
          if s.startDot = -1 then { s with startDot := (i : Int) }
          else if s.preDotState ≠ 1 then { s with preDotState := 1 }
          else s
        else if s.startDot ≠ -1 then { s with preDotState := -1 }
        else s
      extnameLoop path i s

/-- The function `path.extname` of Node on POSIX, an instance of
`Upstream.extname`. -/
def posixExtname (path : String) : String :=
  let chars := path.toList
  let s := extnameLoop chars chars.length ⟨-1, 0, -1, true, 0⟩
  if s.startDot = -1 ∨ s.endAt = -1 ∨ s.preDotState = 0 ∨
      (s.preDotState = 1 ∧ s.startDot = s.endAt - 1 ∧ s.startDot = s.startPart + 1) then ""
  else String.mk ((chars.take s.endAt.toNat).drop s.startDot.toNat)

/-! ## The upload client and the report store (`App.js`) -/

/-- The numbers of JavaScript as far as the client uses them: `parseFloat` and
`String(..)` on a number. -/
structure JsNumbers (Num : Type) where
  parseFloat : String → Num
  toStr : Num → String

/-- The asset object a picker hands to `sendToBackend`. -/
structure Asset where
  uri : String
  name : Option String
  mimeType : Option String
  type : Option String
  deriving DecidableEq, Repr

/-- A latitude and a longitude. -/
structure Coords (Num : Type) where
  latitude : Num
  longitude : Num

/-- The map viewport set with `setRegion`. -/
structure Region (Num : Type) where
  latitude : Num
  longitude : Num
  latitudeDelta : ℚ
  longitudeDelta : ℚ

/-- A marker of the report store. -/
structure Marker (Num : Type) where
  id : Nat
  latitude : Num
  longitude : Num
  type : String
  analysis : String
  uri : Option String
  timestamp : String

/-- The object appended to the form under `file`. -/
structure FormFile where
  uri : String
  name : String
  type : String
  deriving DecidableEq, Repr

/-- A value of a multipart form field. -/
inductive FormValue where
  | file (f : FormFile)
  | text (s : String)
  deriving DecidableEq, Repr

/-- A `FormData`: its fields in the order they were appended. -/
abbrev FormData := List (String × FormValue)

/-- The parsed JSON of a response, as far as the client reads it. -/
structure ResponseJson where
  analysis : Option String
  error : Option String
  latitude : Option String
  longitude : Option String
  deriving DecidableEq, Repr

/-- The outward calls of the client. -/
inductive ClientEffect where
  | fetch (url method : String) (body : FormData)
  | speak (text : String) (options : Option (ℚ × ℚ))
  | consoleError (label message : String)
  | alert (message : String)
  | printToFileAsync (html : String)
  | shareAsync (uri : String)
  deriving DecidableEq

/-- The state of `App` that `sendToBackend` and the filter effect read or set. -/
structure AppState (Num : Type) where
  analysis : String
  uploading : Bool
  location : Option (Coords Num)
  markerCoords : Option (Coords Num)
  markers : List (Marker Num)
  filterType : String
  filteredMarkers : List (Marker Num)
  region : Option (Region Num)

/-- The state of the first render, from the `useState` calls. -/
def initialState (Num : Type) : AppState Num :=
  { analysis := "", uploading := false, location := none, markerCoords := none,
    markers := [], filterType := "image", filteredMarkers := [], region := none }

/-- The value of `a || b` on strings: `a` unless it is absent or empty. -/
def orDefault (a : Option String) (b : String) : String :=
  match a with
  | some s => if s ≠ "" then s else b
  | none => b

/-- The `type` property of the `file` field in `sendToBackend`. -/
def formFileType (file : Asset) (type : String) : String :=
  if type = "audio" then
    if file.mimeType = some "audio/vnd.wave" ∨ file.type = some "audio/vnd.wave" then "audio/wav"
    else orDefault file.type "audio/wav"
  else "image/jpeg"

/-- The `formData` built by `sendToBackend`. -/
def buildFormData {Num : Type} (js : JsNumbers Num) (location : Option (Coords Num))
    (file : Asset) (type : String) : FormData :=
  let fileField : String × FormValue :=
    ("file", .file
      { uri := file.uri
        name := orDefault file.name (if type = "audio" then "audiofile.wav" else "image.jpg")
        type := formFileType file type })
  match location with
  | some loc =>
    [fileField, ("latitude", .text (js.toStr loc.latitude)),
      ("longitude", .text (js.toStr loc.longitude))]
  | none => [fileField]

/-- The `endpoint` chosen by `sendToBackend`. -/
def endpoint (type : String) : String :=
  if type = "image" then "analyze" else "analyze-audio"

/-- The `analysisText` of a response: `json.analysis ?? json.error ?? '..'`. -/
def analysisText (json : ResponseJson) : String :=
  (json.analysis.orElse fun _ => json.error).getD "No analysis returned."

/-- The `newMarker` of `sendToBackend`, `count` being `markers.length`. -/
def newMarker {Num : Type} (js : JsNumbers Num) (count : Nat) (file : Asset) (type : String)
    (json : ResponseJson) (latitude longitude : String) (now : String) : Marker Num :=
  { id := count + 1
    latitude := js.parseFloat latitude
    longitude := js.parseFloat longitude
    type := type
    analysis := analysisText json
    uri := if type = "image" then some file.uri else none
    timestamp := now }

/-- One call of `sendToBackend`, run to its end on the state of the render
that made the call. `reply` is what `fetch` followed by `response.json()`
gives, an error when either throws; `now` is `new Date().toLocaleString()`. -/
def sendToBackend {Num : Type} (js : JsNumbers Num) (st : AppState Num) (file : Asset)
    (type : String) (reply : Except String ResponseJson) (now : String) :
    AppState Num × List ClientEffect :=
  let st := { st with uploading := true, analysis := "", markerCoords := none }
  let formData := buildFormData js st.location file type
  let request : ClientEffect :=
    .fetch ("http://<YOUR_BACKEND_IP_OR_DOMAIN>:3000/" ++ endpoint type) "POST" formData
  match reply with
  | .ok json =>
    let text := analysisText json
    let st := { st with analysis := text }
    let spoken : ClientEffect := .speak text (some (11 / 10, 1))
    match json.latitude, json.longitude with
    | some latitude, some longitude =>
      if latitude ≠ "" ∧ longitude ≠ "" then
        let marker := newMarker js st.markers.length file type json latitude longitude now
        let updatedMarkers := st.markers ++ [marker]
        ({ st with
            markers := updatedMarkers
            region := some ⟨marker.latitude, marker.longitude, 5 / 1000, 5 / 1000⟩
            markerCoords := some ⟨marker.latitude, marker.longitude⟩
            uploading := false },
         [request, spoken])
      else ({ st with uploading := false }, [request, spoken])
    | _, _ => ({ st with uploading := false }, [request, spoken])
  | .error message =>
    ({ st with analysis := "Error uploading file.", uploading := false },
     [request, .consoleError "Upload failed:" message, .speak "Error uploading file." none])

/-- The filter view: `markers.filter((m) => m.type === filterType)`. -/
def filterView {Num : Type} (markers : List (Marker Num)) (filterType : String) :
    List (Marker Num) :=
  markers.filter fun m => m.type == filterType

/-- The effect that follows a change of `filterType` or `markers`. -/
def updateFilteredMarkers {Num : Type} (st : AppState Num) : AppState Num :=
  { st with filteredMarkers := filterView st.markers st.filterType }

/-- A submission: the arguments of one call of `sendToBackend` with the reply
and the clock reading it meets. -/
structure Submission where
  file : Asset
  type : String
  reply : Except String ResponseJson
  now : String

/-- Submissions made one after another: each call runs to its end and the
filter effect follows before the next call is made. -/
def submitAll {Num : Type} (js : JsNumbers Num) (st : AppState Num) :
    List Submission → AppState Num
  | [] => st
  | s :: rest =>
    submitAll js (updateFilteredMarkers (sendToBackend js st s.file s.type s.reply s.now).1) rest

/-- Numbers kept as their decimal text, an instance of `JsNumbers`. -/
def textNumbers : JsNumbers String :=
  { parseFloat := fun s => s, toStr := fun n => n }

/-- Collaborators that answer every transcription with `transcript` and every
chat completion with the normal-behaviour sentence; `path.extname` is the POSIX
one. -/
def sampleUpstream (transcript : String) : Upstream :=
  { readFileSync := fun _ => [77, 97, 110]
    transcribe := fun _ => .ok transcript
    chat := fun _ => .ok (some "This behavior is normal, no distress recognized.")
    extname := posixExtname
    unicodeLower := fun s => s }

/-- An upload of a recording by multer. -/
def sampleFile : UploadedFile :=
  { path := "uploads/3f2a9c", mimetype := "audio/ogg", originalname := "clip.ogg" }

/-- A request with the recording and coordinates attached. -/
def sampleRequest : Request :=
  { file := some sampleFile, latitude := some "12.5", longitude := some "-3.25" }

/-- The `type` property of the `file` field of each request made, in order. -/
def sentFileTypes (effects : List ClientEffect) : List String :=
  effects.filterMap fun e =>
    match e with
    | .fetch _ _ body =>
      match body.lookup "file" with
      | some (.file f) => some f.type
      | _ => none
    | _ => none

/-- Two submissions, an image and a recording, with the replies of the backend. -/
def sampleSubmissions : List Submission :=
  [{ file := { uri := "file:///cache/lion.jpg", name := some "lion.jpg",
               mimeType := some "image/jpeg", type := some "image" }
     type := "image"
     reply := .ok { analysis := some "The animal is not in distress", error := none,
                    latitude := some "12.5", longitude := some "-3.25" }
     now := "11/4/2026, 9:15:00 AM" },
   { file := { uri := "file:///cache/roar.mp3", name := some "roar.mp3",
               mimeType := some "audio/mpeg", type := none }
     type := "audio"
     reply := .ok { analysis := some "This behavior is normal, no distress recognized.",
                    error := none, latitude := some "12.6", longitude := some "-3.20" }
     now := "11/4/2026, 9:20:00 AM" }]

/-- A report store of three markers. -/
def sampleStore : List (Marker String) :=
  [{ id := 1, latitude := "12.5", longitude := "-3.25", type := "image",
     analysis := "The animal is not in distress", uri := some "file:///cache/lion.jpg",
     timestamp := "11/4/2026, 9:15:00 AM" },
   { id := 2, latitude := "12.6", longitude := "-3.20", type := "audio",
     analysis := "This behavior is normal, no distress recognized.", uri := none,
     timestamp := "11/4/2026, 9:20:00 AM" },
   { id := 3, latitude := "12.7", longitude := "-3.10", type := "image",
     analysis := "The animal is in distress!", uri := some "file:///cache/rhino.jpg",
     timestamp := "11/4/2026, 9:40:00 AM" }]

/-! ## `exportPDF` -/

/-- The text of `htmlContent` before the report blocks. -/
def htmlHead : String :=
  "\n      <html>\n        <head>\n          <style>\n            body \x7b font-family: Arial; padding: 20px; \x7d\n            h1 \x7b color: black; \x7d\n            .report \x7b\n              border-bottom: 1px solid #ccc;\n              margin-bottom: 20px;\n              padding-bottom: 10px;\n            \x7d\n            .title \x7b font-weight: bold; font-size: 18px; \x7d\n            .text \x7b margin: 4px 0; \x7d\n          </style>\n        </head>\n        <body>\n          <h1>Wildlife Sightings Report</h1>\n          "

/-- The text of `htmlContent` after the report blocks. -/
def htmlTail : String :=
  "\n        </body>\n      </html>\n    "

/-- The block of one marker in `htmlContent`; `toFixed` is
`Number.prototype.toFixed`. -/
def reportBlock {Num : Type} (toFixed : Num → Nat → String) (marker : Marker Num) : String :=
  "\n            <div class=\"report\">\n              <div class=\"title\">" ++
    (if marker.type = "image" then "Image Report" else "Audio Report") ++
    "</div>\n              <div class=\"text\">🕒 " ++
    marker.timestamp ++
    "</div>\n              <div class=\"text\">📍 " ++
    toFixed marker.latitude 5 ++
    ", " ++
    toFixed marker.longitude 5 ++
    "</div>\n              <div class=\"text\">" ++
    marker.analysis ++
    "</div>\n            </div>\n          "

/-- The `htmlContent` of `exportPDF`: the blocks of `markers.map(..)` joined
with the empty string, between the head and the tail of the template. -/
def htmlContent {Num : Type} (toFixed : Num → Nat → String) (markers : List (Marker Num)) :
    String :=
  htmlHead ++ String.join (markers.map (reportBlock toFixed)) ++ htmlTail

/-- One call of `exportPDF` on the state of the render that made it: its
outward calls in order. `printed` is what `Print.printToFileAsync` gives (the
`uri`, or an error when it throws) and `shared` what `Sharing.shareAsync`
gives. -/
def exportPDF {Num : Type} (toFixed : Num → Nat → String) (st : AppState Num)
    (printed : Except String String) (shared : Except String Unit) : List ClientEffect :=
  if st.markers.length = 0 then [.alert "No reports to export."]
  else
    let html := htmlContent toFixed st.markers
    match printed with
    | .error message =>
      [.printToFileAsync html, .consoleError "Failed to export PDF:" message,
        .alert "Error exporting PDF."]
    | .ok uri =>
      match shared with
      | .error message =>
        [.printToFileAsync html, .shareAsync uri, .consoleError "Failed to export PDF:" message,
          .alert "Error exporting PDF."]
      | .ok _ => [.printToFileAsync html, .shareAsync uri]

/-- The requests a list of outward calls makes, in order. -/
def fetchCalls (effects : List ClientEffect) : List ClientEffect :=
  effects.filter fun e =>
    match e with
    | .fetch _ _ _ => true
    | _ => false

/-- The texts a list of outward calls speaks, in order. -/
def spokenTexts (effects : List ClientEffect) : List String :=
  effects.filterMap fun e =>
    match e with
    | .speak text _ => some text
    | _ => none

/-- A state with the three markers of `sampleStore`, the audio filter chosen. -/
def sampleState : AppState String :=
  { analysis := "The animal is in distress!", uploading := false,
    location := some ⟨"12.7", "-3.10"⟩, markerCoords := some ⟨"12.7", "-3.10"⟩,
    markers := sampleStore, filterType := "audio", filteredMarkers := filterView sampleStore "audio",
    region := none }

/-- The `type` of the `file` field in the words of the specification:
'audio/wav' when the picker reports 'audio/vnd.wave', otherwise the type the
picker reports, as `type` or as `mimeType`, when it reports one, otherwise
'audio/wav'; 'image/jpeg' for an image. -/
def specFileType (file : Asset) (type : String) : String :=
  if type = "audio" then
    if file.mimeType = some "audio/vnd.wave" ∨ file.type = some "audio/vnd.wave" then "audio/wav"
    else orDefault file.type (orDefault file.mimeType "audio/wav")
  else "image/jpeg"

/-- The asset of an MP3 recording as the document picker reports it: the MIME
type is in `mimeType` and there is no `type`. -/
def mp3Asset : Asset :=
  { uri := "file:///cache/roar.mp3", name := some "roar.mp3", mimeType := some "audio/mpeg",
    type := none }

/-- `Number.prototype.toFixed` on numbers kept as decimal text with no more
fractional digits than asked for: the fraction is filled up with zeros. An
instance for evaluation. -/
def toFixedText (n : String) (digits : Nat) : String :=
  let whole := n.toList.takeWhile fun c => c != '.'
  let fraction := (n.toList.dropWhile fun c => c != '.').drop 1
  String.mk (whole ++ ['.'] ++ fraction ++ List.replicate (digits - fraction.length) '0')

/-! ## The rejection filter -/

theorem splitWhere_ne_nil (p : Char → Bool) (s : List Char) : splitWhere p s ≠ [] := by
  induction s with
  | nil => simp [splitWhere]
  | cons c cs ih =>
    unfold splitWhere
    split
    · simp
    · split <;> simp

theorem splitWhere_length (p : Char → Bool) (s : List Char) :
    (splitWhere p s).length = s.countP p + 1 := by
  induction s with
  | nil => simp [splitWhere]
  | cons c cs ih =>
    unfold splitWhere
    by_cases h : p c
    · simp [h, ih]
    · simp only [h, Bool.false_eq_true, if_false]
      cases hs : splitWhere p cs with
      | nil => exact absurd hs (splitWhere_ne_nil p cs)
      | cons piece pieces =>
        rw [hs] at ih
        simp [List.countP_cons, h] at ih ⊢
        omega

theorem split_length (sep : Char) (s : List Char) :
    (split sep s).length = s.count sep + 1 := by
  unfold split
  rw [splitWhere_length]
  rfl

theorem matchesDigitSpaceDotCm_iff (s : List Char) :
    matchesDigitSpaceDotCm s = true ↔
      s ≠ [] ∧ ∀ ch ∈ s,
        ch.isDigit = true ∨ isJsWhiteSpace ch = true ∨ ch = '.' ∨ ch = 'c' ∨ ch = 'm' := by
  cases s with
  | nil => simp [matchesDigitSpaceDotCm]
  | cons a as =>
    simp [matchesDigitSpaceDotCm, inDigitSpaceDotCmClass, or_assoc]

/-- C1 as stated fails: the transcript of three words on three lines is its own
trimmed, lowercased form, is 14 characters long, has a letter outside the class,
is no filler utterance and has three whitespace-delimited tokens, yet
`isBadTranscript` is true, because `split(' ')` finds no space in it. And a
transcript of two words with two spaces between them has two
whitespace-delimited tokens, yet `isBadTranscript` is false. -/
theorem isBadTranscript_not_whitespace_tokens :
    (∀ u, toLowerCase u (trim "roar\nroar\nroar".toList) = "roar\nroar\nroar".toList) ∧
    (whitespaceTokens "roar\nroar\nroar".toList).length = 3 ∧
    specRejects "roar\nroar\nroar".toList = false ∧
    isBadTranscript "roar\nroar\nroar".toList = true ∧
    (∀ u, toLowerCase u (trim "lion  roars".toList) = "lion  roars".toList) ∧
    (whitespaceTokens "lion  roars".toList).length = 2 ∧
    specRejects "lion  roars".toList = true ∧
    isBadTranscript "lion  roars".toList = false := by
  refine ⟨fun _ => rfl, by decide, by decide, by decide, fun _ => rfl, by decide, by decide,
    by decide⟩

/-- C1, amended: `isBadTranscript` is true exactly when the cleaned transcript
is shorter than 8 UTF-16 code units, or is non-empty and made only of digits,
white space, periods and the letters `c` and `m`, or is one of the six filler
utterances, or splits on the space character U+0020 into at most two pieces,
that is, holds at most one space character. -/
theorem isBadTranscript_iff (c : List Char) :
    isBadTranscript c = true ↔
      (utf16Length c < 8 ∨
       (c ≠ [] ∧ ∀ ch ∈ c,
          ch.isDigit = true ∨ isJsWhiteSpace ch = true ∨ ch = '.' ∨ ch = 'c' ∨ ch = 'm') ∨
       c ∈ ["you".toList, "uh".toList, "uh uh".toList, "hello".toList, "hi".toList,
            "hey, oh, oh oh you".toList] ∨
       ((split ' ' c).length ≤ 2 ∧ c.count ' ' ≤ 1)) := by
  have hsplit : (split ' ' c).length ≤ 2 ↔ ((split ' ' c).length ≤ 2 ∧ c.count ' ' ≤ 1) := by
    rw [split_length]
    omega
  rw [← hsplit]
  unfold isBadTranscript
  simp only [Bool.or_eq_true, decide_eq_true_eq, matchesDigitSpaceDotCm_iff,
    List.contains_eq_any_beq, List.any_eq_true, beq_iff_eq, or_assoc]
  have hmem : (∃ x ∈ fillerUtterances, c = x) ↔
      c ∈ ["you".toList, "uh".toList, "uh uh".toList, "hello".toList, "hi".toList,
            "hey, oh, oh oh you".toList] :=
    ⟨fun ⟨_, hx, e⟩ => e ▸ hx, fun h => ⟨c, h, rfl⟩⟩
  rw [hmem]

/-! ## `POST /analyze-audio`: rejected and forwarded transcripts -/

/-- C2: when a file is attached, the transcription answers `transcript` and the
filter rejects it, the response is status 200 with the body
`{ analysis: 'The audio was too short, ...' }` and nothing else, and the run
requests no chat completion; the transcript "42.0 cm" is rejected. -/
theorem analyzeAudio_rejected (up : Upstream) (req : Request) (file : UploadedFile)
    (transcript : String) (hfile : req.file = some file)
    (htranscript : up.transcribe (renamedPath up.extname file) = .ok transcript)
    (hbad : isBadTranscript (cleanedTranscript up transcript) = true) :
    (analyzeAudio up req).response =
      ⟨200, [("analysis",
        "The audio was too short, unclear, or not recognized as an animal sound. Please upload a different recording.")]⟩ ∧
    chatCalls (analyzeAudio up req).trace = [] ∧
    isBadTranscript (cleanedTranscript up "42.0 cm") = true := by
  refine ⟨?_, ?_, by rfl⟩
  · simp [analyzeAudio, hfile, htranscript, hbad, jsonObject, unclearAudioMessage]
  · simp [analyzeAudio, hfile, htranscript, hbad, chatCalls]

/-- C2 at the transcript "42.0 cm". -/
theorem analyzeAudio_rejected_witness :
    sampleRequest.file = some sampleFile ∧
    (sampleUpstream "42.0 cm").transcribe
      (renamedPath (sampleUpstream "42.0 cm").extname sampleFile) = .ok "42.0 cm" ∧
    isBadTranscript (cleanedTranscript (sampleUpstream "42.0 cm") "42.0 cm") = true ∧
    ((analyzeAudio (sampleUpstream "42.0 cm") sampleRequest).response =
      ⟨200, [("analysis",
        "The audio was too short, unclear, or not recognized as an animal sound. Please upload a different recording.")]⟩ ∧
    chatCalls (analyzeAudio (sampleUpstream "42.0 cm") sampleRequest).trace = [] ∧
    isBadTranscript (cleanedTranscript (sampleUpstream "42.0 cm") "42.0 cm") = true) :=
  ⟨rfl, rfl, by rfl,
    analyzeAudio_rejected (sampleUpstream "42.0 cm") sampleRequest sampleFile "42.0 cm" rfl rfl
      (by rfl)⟩

/-- C3: when a file is attached, the transcription answers `transcript` and the
filter does not reject it, the run requests exactly one chat completion: model
`gpt-4o`, the system instruction naming the two sentences, the user content
`Animal vocalization transcription: ` followed by the transcript as returned,
`max_tokens` 300 and temperature 0.5; the transcript "the lion is roaring
loudly and pacing" is not rejected. -/
theorem analyzeAudio_forwarded (up : Upstream) (req : Request) (file : UploadedFile)
    (transcript : String) (hfile : req.file = some file)
    (htranscript : up.transcribe (renamedPath up.extname file) = .ok transcript)
    (hgood : isBadTranscript (cleanedTranscript up transcript) = false) :
    chatCalls (analyzeAudio up req).trace =
      [{ model := "gpt-4o"
         messages :=
           [{ role := "system"
              content := .str
                "You are a wildlife expert. Respond with only one of the following: This behavior is normal, no distress recognized. OR This behavior is abnormal, the animal is in distress!" },
            { role := "user"
              content := .str ("Animal vocalization transcription: " ++ transcript) }]
         max_tokens := 300
         temperature := some (1 / 2) }] ∧
    isBadTranscript (cleanedTranscript up "the lion is roaring loudly and pacing") = false := by
  refine ⟨?_, by rfl⟩
  unfold analyzeAudio
  simp only [hfile, htranscript, hgood]
  cases hchat : up.chat (classificationRequest transcript) <;>
    simp [chatCalls, classificationRequest, systemInstruction]

/-- C3 at the transcript "the lion is roaring loudly and pacing". -/
theorem analyzeAudio_forwarded_witness :
    sampleRequest.file = some sampleFile ∧
    (sampleUpstream "the lion is roaring loudly and pacing").transcribe
      (renamedPath (sampleUpstream "the lion is roaring loudly and pacing").extname sampleFile) =
        .ok "the lion is roaring loudly and pacing" ∧
    isBadTranscript (cleanedTranscript (sampleUpstream "the lion is roaring loudly and pacing")
      "the lion is roaring loudly and pacing") = false ∧
    (chatCalls (analyzeAudio (sampleUpstream "the lion is roaring loudly and pacing")
        sampleRequest).trace =
      [{ model := "gpt-4o"
         messages :=
           [{ role := "system"
              content := .str
                "You are a wildlife expert. Respond with only one of the following: This behavior is normal, no distress recognized. OR This behavior is abnormal, the animal is in distress!" },
            { role := "user"
              content := .str ("Animal vocalization transcription: " ++
                "the lion is roaring loudly and pacing") }]
         max_tokens := 300
         temperature := some (1 / 2) }] ∧
    isBadTranscript (cleanedTranscript (sampleUpstream "the lion is roaring loudly and pacing")
      "the lion is roaring loudly and pacing") = false) :=
  ⟨rfl, rfl, by rfl,
    analyzeAudio_forwarded (sampleUpstream "the lion is roaring loudly and pacing") sampleRequest
      sampleFile "the lion is roaring loudly and pacing" rfl rfl (by rfl)⟩

/-! ## Requests without a file -/

/-- C4: a request to `POST /analyze` or to `POST /analyze-audio` with no file
attached is answered with status 400 and a body whose only field is `error`,
and the run makes no outward call at all: no file read or rename, no
transcription, no chat completion. -/
theorem no_file_bad_request (up : Upstream) (req : Request) (hfile : req.file = none) :
    (analyze up req).response = ⟨400, [("error", "No file uploaded")]⟩ ∧
    (analyze up req).trace = [] ∧
    (analyzeAudio up req).response = ⟨400, [("error", "No audio file uploaded")]⟩ ∧
    (analyzeAudio up req).trace = [] ∧
    ((analyze up req).response.body.lookup "error").isSome = true ∧
    ((analyzeAudio up req).response.body.lookup "error").isSome = true := by
  simp [analyze, analyzeAudio, hfile, jsonObject, List.lookup]

/-- C4 at a request that carries coordinates and no file. -/
theorem no_file_bad_request_witness :
    (⟨none, some "12.5", some "-3.25"⟩ : Request).file = none ∧
    ((analyze (sampleUpstream "") ⟨none, some "12.5", some "-3.25"⟩).response =
        ⟨400, [("error", "No file uploaded")]⟩ ∧
      (analyze (sampleUpstream "") ⟨none, some "12.5", some "-3.25"⟩).trace = [] ∧
      (analyzeAudio (sampleUpstream "") ⟨none, some "12.5", some "-3.25"⟩).response =
        ⟨400, [("error", "No audio file uploaded")]⟩ ∧
      (analyzeAudio (sampleUpstream "") ⟨none, some "12.5", some "-3.25"⟩).trace = [] ∧
      ((analyze (sampleUpstream "") ⟨none, some "12.5", some "-3.25"⟩).response.body.lookup
        "error").isSome = true ∧
      ((analyzeAudio (sampleUpstream "") ⟨none, some "12.5", some "-3.25"⟩).response.body.lookup
        "error").isSome = true) :=
  ⟨rfl, no_file_bad_request (sampleUpstream "") ⟨none, some "12.5", some "-3.25"⟩ rfl⟩

/-! ## The coordinates in the response -/

theorem lookup_jsonObject_coordinates (analysis : String) (latitude longitude : Option String) :
    (jsonObject [("analysis", some analysis), ("latitude", latitude),
        ("longitude", longitude)]).lookup "analysis" = some analysis ∧
    (jsonObject [("analysis", some analysis), ("latitude", latitude),
        ("longitude", longitude)]).lookup "latitude" = latitude ∧
    (jsonObject [("analysis", some analysis), ("latitude", latitude),
        ("longitude", longitude)]).lookup "longitude" = longitude := by
  cases latitude <;> cases longitude <;> simp [jsonObject, List.lookup]

/-- C5 as stated fails: with a file attached, latitude "12.5" and longitude
"-3.25" in the body, a transcription that answers "42.0 cm" and a chat service
that never throws, the response body is the analysis alone: it has no
`latitude` and no `longitude`. -/
theorem analyzeAudio_rejected_without_coordinates :
    sampleRequest.file = some sampleFile ∧
    sampleRequest.latitude = some "12.5" ∧
    sampleRequest.longitude = some "-3.25" ∧
    (sampleUpstream "42.0 cm").transcribe
      (renamedPath (sampleUpstream "42.0 cm").extname sampleFile) = .ok "42.0 cm" ∧
    (∀ request, (sampleUpstream "42.0 cm").chat request =
      .ok (some "This behavior is normal, no distress recognized.")) ∧
    (analyzeAudio (sampleUpstream "42.0 cm") sampleRequest).response.body =
      [("analysis", unclearAudioMessage)] ∧
    (analyzeAudio (sampleUpstream "42.0 cm") sampleRequest).response.body.lookup "latitude" =
      none ∧
    (analyzeAudio (sampleUpstream "42.0 cm") sampleRequest).response.body.lookup "longitude" =
      none := by
  refine ⟨rfl, rfl, rfl, rfl, fun _ => rfl, by rfl, by rfl, by rfl⟩

/-- C5, amended: when a file is attached, neither the transcription nor the
classification call throws and the transcript is not rejected by the filter, the
response is status 200 with the body `{ analysis, latitude, longitude }`, where
`analysis` is the content of the completion (or 'No analysis returned.') and
`latitude` and `longitude` are those of the request body, each present exactly
when the request has it; the image endpoint answers a completion that does not
throw with a body of the same shape. -/
theorem analyzeAudio_echoes_coordinates (up : Upstream) (req : Request) (file : UploadedFile)
    (transcript : String) (content : Option String) (hfile : req.file = some file)
    (htranscript : up.transcribe (renamedPath up.extname file) = .ok transcript)
    (hgood : isBadTranscript (cleanedTranscript up transcript) = false)
    (hchat : up.chat (classificationRequest transcript) = .ok content) :
    (analyzeAudio up req).response =
      ⟨200, jsonObject [("analysis", some (content.getD "No analysis returned.")),
        ("latitude", req.latitude), ("longitude", req.longitude)]⟩ ∧
    (analyzeAudio up req).response.body.lookup "analysis" =
      some (content.getD "No analysis returned.") ∧
    (analyzeAudio up req).response.body.lookup "latitude" = req.latitude ∧
    (analyzeAudio up req).response.body.lookup "longitude" = req.longitude ∧
    (∀ imageContent, up.chat (imageRequest (up.readFileSync file.path)) = .ok imageContent →
      (analyze up req).response =
        ⟨200, jsonObject [("analysis", some (imageContent.getD "No analysis returned.")),
          ("latitude", req.latitude), ("longitude", req.longitude)]⟩) := by
  have hresp : (analyzeAudio up req).response =
      ⟨200, jsonObject [("analysis", some (content.getD "No analysis returned.")),
        ("latitude", req.latitude), ("longitude", req.longitude)]⟩ := by
    unfold analyzeAudio
    simp only [hfile, htranscript, hgood, hchat]
    rfl
  have hl := lookup_jsonObject_coordinates (content.getD "No analysis returned.")
    req.latitude req.longitude
  refine ⟨hresp, ?_, ?_, ?_, ?_⟩
  · rw [hresp]; exact hl.1
  · rw [hresp]; exact hl.2.1
  · rw [hresp]; exact hl.2.2
  · intro imageContent himage
    unfold analyze
    simp only [hfile, himage]

/-- C5, amended, at the transcript "the lion is roaring loudly and pacing". -/
theorem analyzeAudio_echoes_coordinates_witness :
    sampleRequest.file = some sampleFile ∧
    (sampleUpstream "the lion is roaring loudly and pacing").transcribe
      (renamedPath (sampleUpstream "the lion is roaring loudly and pacing").extname sampleFile) =
        .ok "the lion is roaring loudly and pacing" ∧
    isBadTranscript (cleanedTranscript (sampleUpstream "the lion is roaring loudly and pacing")
      "the lion is roaring loudly and pacing") = false ∧
    (sampleUpstream "the lion is roaring loudly and pacing").chat
      (classificationRequest "the lion is roaring loudly and pacing") =
        .ok (some "This behavior is normal, no distress recognized.") ∧
    (analyzeAudio (sampleUpstream "the lion is roaring loudly and pacing")
      sampleRequest).response.body.lookup "latitude" = some "12.5" ∧
    (analyzeAudio (sampleUpstream "the lion is roaring loudly and pacing")
      sampleRequest).response.body.lookup "longitude" = some "-3.25" :=
  have h := analyzeAudio_echoes_coordinates (sampleUpstream "the lion is roaring loudly and pacing")
    sampleRequest sampleFile "the lion is roaring loudly and pacing"
    (some "This behavior is normal, no distress recognized.") rfl rfl (by rfl) rfl
  ⟨rfl, rfl, by rfl, rfl, h.2.2.1, h.2.2.2.1⟩

/-! ## The extension of the renamed upload -/

/-- C7: when a file is attached, the first outward call of `/analyze-audio`
renames the upload from its path to that path with `ext` appended, where `ext`
is '.mp3' for the MIME type 'audio/mpeg', '.wav' for 'audio/wav', and otherwise
the extension `path.extname` finds in the original name or, when that is empty,
'.mp3'; `ext` is never empty. -/
theorem analyzeAudio_renames_with_extension (up : Upstream) (req : Request)
    (file : UploadedFile) (hfile : req.file = some file) :
    (analyzeAudio up req).trace.head? =
      some (.renameSync file.path (file.path ++ ext up.extname file)) ∧
    ext up.extname file =
      (if file.mimetype = "audio/mpeg" then ".mp3"
       else if file.mimetype = "audio/wav" then ".wav"
       else if up.extname file.originalname = "" then ".mp3"
       else up.extname file.originalname) ∧
    ext up.extname file ≠ "" := by
  refine ⟨?_, ?_, ?_⟩
  · unfold analyzeAudio
    simp only [hfile]
    repeat' split
    all_goals simp [renamedPath]
  · unfold ext
    by_cases h1 : file.mimetype = "audio/mpeg"
    · simp [h1]
    · by_cases h2 : file.mimetype = "audio/wav"
      · simp [h2]
      · by_cases h3 : up.extname file.originalname = "" <;> simp [h1, h2, h3]
  · unfold ext
    by_cases h1 : file.mimetype = "audio/mpeg"
    · simp only [h1, if_true]; decide
    · by_cases h2 : file.mimetype = "audio/wav"
      · simp only [h1, h2, if_true, if_false]; decide
      · by_cases h3 : up.extname file.originalname = ""
        · simp only [h1, h2, h3, if_false, ne_eq, not_true_eq_false]; decide
        · simp only [h1, h2, if_false, ne_eq, h3, not_false_eq_true, if_true]

/-- C7 at an upload of type 'audio/ogg' named 'clip.ogg': the extension is
that of the name. -/
theorem analyzeAudio_renames_with_extension_witness :
    sampleRequest.file = some sampleFile ∧
    (analyzeAudio (sampleUpstream "42.0 cm") sampleRequest).trace.head? =
      some (.renameSync "uploads/3f2a9c" "uploads/3f2a9c.ogg") ∧
    ext (sampleUpstream "42.0 cm").extname sampleFile = ".ogg" :=
  have h := analyzeAudio_renames_with_extension (sampleUpstream "42.0 cm") sampleRequest
    sampleFile rfl
  have hext : ext (sampleUpstream "42.0 cm").extname sampleFile = ".ogg" := by decide
  ⟨rfl, by rw [h.1, hext]; rfl, hext⟩

/-! ## The MIME type of the multipart file field -/

/-- What the code sends: `sendToBackend` makes one request. For an audio
submission the `type` of its `file` field is 'audio/wav' when the asset reports 'audio/vnd.wave' (as
`mimeType` or as `type`), otherwise the `type` the asset reports when it
reports a non-empty one, otherwise 'audio/wav'; for an image submission it is
'image/jpeg' whatever the asset reports. -/
theorem sendToBackend_file_type {Num : Type} (js : JsNumbers Num) (st : AppState Num)
    (file : Asset) (reply : Except String ResponseJson) (now : String) :
    sentFileTypes (sendToBackend js st file "audio" reply now).2 =
      [if file.mimeType = some "audio/vnd.wave" ∨ file.type = some "audio/vnd.wave" then
         "audio/wav"
       else
         match file.type with
         | some reported => if reported = "" then "audio/wav" else reported
         | none => "audio/wav"] ∧
    sentFileTypes (sendToBackend js st file "image" reply now).2 = ["image/jpeg"] := by
  have hform : ∀ type : String,
      (buildFormData js st.location file type).lookup "file" =
        some (.file
          { uri := file.uri
            name := orDefault file.name (if type = "audio" then "audiofile.wav" else "image.jpg")
            type := formFileType file type }) := by
    intro type
    unfold buildFormData
    cases st.location <;> simp [List.lookup]
  have hsent : ∀ type : String,
      sentFileTypes (sendToBackend js st file type reply now).2 = [formFileType file type] := by
    intro type
    unfold sendToBackend
    cases reply with
    | error message => simp [sentFileTypes, hform]
    | ok json =>
      simp only
      split
      · split <;> simp [sentFileTypes, hform]
      · simp [sentFileTypes, hform]
  refine ⟨?_, ?_⟩
  · rw [hsent "audio"]
    unfold formFileType orDefault
    by_cases h : file.mimeType = some "audio/vnd.wave" ∨ file.type = some "audio/vnd.wave"
    · simp [h]
    · cases hty : file.type with
      | none => simp [h, hty] at *
      | some reported =>
        by_cases he : reported = "" <;> simp [h, hty, he] at *
  · rw [hsent "image"]
    simp [formFileType]

/-- C6, the code at the failing input: the document picker reports an MP3
recording with `mimeType` 'audio/mpeg' and no `type`. The claim gives the
reported type 'audio/mpeg' for it; `sendToBackend` sends 'audio/wav', whatever
the reply, because its fallback reads `file.type` only, though the test just
before it reads `file.mimeType` as well. The backend then gives the upload the
extension '.wav' instead of '.mp3'. -/
theorem sendToBackend_file_type_ignores_mimeType :
    mp3Asset.mimeType = some "audio/mpeg" ∧
    mp3Asset.type = none ∧
    specFileType mp3Asset "audio" = "audio/mpeg" ∧
    formFileType mp3Asset "audio" = "audio/wav" ∧
    (∀ (reply : Except String ResponseJson) (now : String),
      sentFileTypes (sendToBackend textNumbers (initialState String) mp3Asset "audio" reply now).2 =
        ["audio/wav"]) ∧
    ext posixExtname ⟨"uploads/3f2a9c", "audio/mpeg", "roar.mp3"⟩ = ".mp3" ∧
    ext posixExtname ⟨"uploads/3f2a9c", "audio/wav", "roar.mp3"⟩ = ".wav" := by
  refine ⟨rfl, rfl, by decide, by decide, ?_, by decide, by decide⟩
  intro reply now
  rw [(sendToBackend_file_type textNumbers (initialState String) mp3Asset reply now).1]
  decide

/-! ## The report store -/

theorem sendToBackend_appends_marker {Num : Type} (js : JsNumbers Num) (st : AppState Num)
    (file : Asset) (type : String) (json : ResponseJson) (latitude longitude now : String)
    (hlat : json.latitude = some latitude) (hlon : json.longitude = some longitude)
    (hlatNonempty : latitude ≠ "") (hlonNonempty : longitude ≠ "") :
    (sendToBackend js st file type (.ok json) now).1.markers =
      st.markers ++ [newMarker js st.markers.length file type json latitude longitude now] := by
  simp [sendToBackend, hlat, hlon, hlatNonempty, hlonNonempty]

theorem submitAll_markers_append {Num : Type} (js : JsNumbers Num) (subs : List Submission) :
    ∀ st : AppState Num,
      (∀ s ∈ subs, ∃ json latitude longitude, s.reply = .ok json ∧
        json.latitude = some latitude ∧ json.longitude = some longitude ∧
        latitude ≠ "" ∧ longitude ≠ "") →
      ∃ added : List (Marker Num),
        (submitAll js st subs).markers = st.markers ++ added ∧
        added.length = subs.length ∧
        ∀ (i : Nat) (hi : i < subs.length), ∃ json latitude longitude,
          subs[i].reply = .ok json ∧ json.latitude = some latitude ∧
          json.longitude = some longitude ∧
          added[i]? = some
            (newMarker js (st.markers.length + i) subs[i].file subs[i].type json latitude
              longitude subs[i].now) := by
  induction subs with
  | nil =>
    intro st _
    exact ⟨[], by simp [submitAll], rfl, fun i hi => absurd hi (Nat.not_lt_zero i)⟩
  | cons s rest ih =>
    intro st hcoords
    obtain ⟨json, latitude, longitude, hreply, hlat, hlon, hlatNonempty, hlonNonempty⟩ :=
      hcoords s (List.mem_cons_self s rest)
    have hstep := sendToBackend_appends_marker js st s.file s.type json latitude longitude s.now
      hlat hlon hlatNonempty hlonNonempty
    obtain ⟨added, hmarkers, hlength, hadded⟩ :=
      ih (updateFilteredMarkers (sendToBackend js st s.file s.type s.reply s.now).1)
        (fun s' hs' => hcoords s' (List.mem_cons_of_mem s hs'))
    have hnext : (updateFilteredMarkers (sendToBackend js st s.file s.type s.reply s.now).1).markers =
        st.markers ++ [newMarker js st.markers.length s.file s.type json latitude longitude s.now] := by
      rw [hreply]
      exact hstep
    refine ⟨newMarker js st.markers.length s.file s.type json latitude longitude s.now :: added,
      ?_, by simp [hlength], ?_⟩
    · show (submitAll js _ rest).markers = _
      rw [hmarkers, hnext]
      simp
    · intro i hi
      cases i with
      | zero => exact ⟨json, latitude, longitude, hreply, hlat, hlon, by simp⟩
      | succ j =>
        have hj : j < rest.length := by simpa using hi
        obtain ⟨json', latitude', longitude', hreply', hlat', hlon', hget⟩ := hadded j hj
        refine ⟨json', latitude', longitude', by simpa using hreply', hlat', hlon', ?_⟩
        rw [hnext] at hget
        simp only [List.length_append, List.length_singleton] at hget
        simp only [List.getElem?_cons_succ, List.getElem_cons_succ]
        rw [hget]
        congr 2
        omega

/-- C8: N submissions made one after another from a store with no marker, each
answered with a non-empty latitude and longitude, leave exactly N markers, in
the order of the submissions: the marker at position i (counted from 1) has id
i, the type of the i-th submission, the analysis text of its response, the
coordinates `parseFloat` reads in that response, and the image uri for an image
and none otherwise. -/
theorem submitAll_from_empty_store {Num : Type} (js : JsNumbers Num) (st : AppState Num)
    (subs : List Submission) (hempty : st.markers = [])
    (hcoords : ∀ s ∈ subs, ∃ json latitude longitude, s.reply = .ok json ∧
      json.latitude = some latitude ∧ json.longitude = some longitude ∧
      latitude ≠ "" ∧ longitude ≠ "") :
    (submitAll js st subs).markers.length = subs.length ∧
    ∀ (i : Nat) (hi : i < subs.length), ∃ json latitude longitude,
      subs[i].reply = .ok json ∧ json.latitude = some latitude ∧
      json.longitude = some longitude ∧
      (submitAll js st subs).markers[i]? = some
        { id := i + 1
          latitude := js.parseFloat latitude
          longitude := js.parseFloat longitude
          type := subs[i].type
          analysis := (json.analysis.orElse fun _ => json.error).getD "No analysis returned."
          uri := if subs[i].type = "image" then some subs[i].file.uri else none
          timestamp := subs[i].now } := by
  obtain ⟨added, hmarkers, hlength, hadded⟩ := submitAll_markers_append js subs st hcoords
  rw [hempty, List.nil_append] at hmarkers
  refine ⟨by rw [hmarkers, hlength], ?_⟩
  intro i hi
  obtain ⟨json, latitude, longitude, hreply, hlat, hlon, hget⟩ := hadded i hi
  refine ⟨json, latitude, longitude, hreply, hlat, hlon, ?_⟩
  rw [hmarkers, hget, hempty]
  simp [newMarker, analysisText]

/-- C8 at an image submission followed by an audio submission. -/
theorem submitAll_from_empty_store_witness :
    (initialState String).markers = [] ∧
    (∀ s ∈ sampleSubmissions, ∃ json latitude longitude, s.reply = .ok json ∧
      json.latitude = some latitude ∧ json.longitude = some longitude ∧
      latitude ≠ "" ∧ longitude ≠ "") ∧
    (submitAll textNumbers (initialState String) sampleSubmissions).markers.length = 2 :=
  have hcoords : ∀ s ∈ sampleSubmissions, ∃ json latitude longitude, s.reply = .ok json ∧
      json.latitude = some latitude ∧ json.longitude = some longitude ∧
      latitude ≠ "" ∧ longitude ≠ "" := by
    intro s hs
    simp only [sampleSubmissions, List.mem_cons, List.mem_singleton, List.not_mem_nil,
      or_false] at hs
    rcases hs with rfl | rfl <;> exact ⟨_, _, _, rfl, rfl, rfl, by decide, by decide⟩
  ⟨rfl, hcoords,
    (submitAll_from_empty_store textNumbers (initialState String) sampleSubmissions rfl hcoords).1⟩

/-! ## The filter view -/

theorem mem_filterView {Num : Type} (markers : List (Marker Num)) (kind : String)
    (m : Marker Num) : m ∈ filterView markers kind ↔ m ∈ markers ∧ m.type = kind := by
  simp [filterView]

/-- C9: in a store whose markers all have type 'image' or 'audio', no marker is
in both the 'image' view and the 'audio' view, every marker of the store is in
exactly one of them, every marker of a view is in the store, the two views
together are a rearrangement of the store, and their lengths add up to the
length of the store. -/
theorem filterView_image_audio_partition {Num : Type} (markers : List (Marker Num))
    (htypes : ∀ m ∈ markers, m.type = "image" ∨ m.type = "audio") :
    (∀ m, ¬ (m ∈ filterView markers "image" ∧ m ∈ filterView markers "audio")) ∧
    (∀ m ∈ markers,
      (m ∈ filterView markers "image" ∧ m ∉ filterView markers "audio") ∨
      (m ∈ filterView markers "audio" ∧ m ∉ filterView markers "image")) ∧
    (∀ m, m ∈ filterView markers "image" ∨ m ∈ filterView markers "audio" → m ∈ markers) ∧
    (filterView markers "image" ++ filterView markers "audio").Perm markers ∧
    (filterView markers "image").length + (filterView markers "audio").length =
      markers.length := by
  have hne : ("image" : String) ≠ "audio" := by decide
  have hperm : (filterView markers "image" ++ filterView markers "audio").Perm markers := by
    have haudio : filterView markers "audio" =
        markers.filter (fun m => !(m.type == "image")) := by
      unfold filterView
      apply List.filter_congr
      intro m hm
      rcases htypes m hm with h | h <;> simp [h]
    rw [haudio]
    exact List.filter_append_perm _ markers
  refine ⟨?_, ?_, ?_, hperm, ?_⟩
  · intro m hm
    rw [mem_filterView, mem_filterView] at hm
    exact hne (hm.1.2.symm.trans hm.2.2)
  · intro m hm
    rcases htypes m hm with h | h
    · left
      refine ⟨(mem_filterView _ _ _).2 ⟨hm, h⟩, fun hmem => ?_⟩
      exact hne (h.symm.trans ((mem_filterView _ _ _).1 hmem).2)
    · right
      refine ⟨(mem_filterView _ _ _).2 ⟨hm, h⟩, fun hmem => ?_⟩
      exact hne (((mem_filterView _ _ _).1 hmem).2.symm.trans h)
  · intro m hm
    rcases hm with h | h <;> exact ((mem_filterView _ _ _).1 h).1
  · have := hperm.length_eq
    simpa using this

/-- C9 at a store of two image markers and one audio marker. -/
theorem filterView_image_audio_partition_witness :
    (∀ m ∈ sampleStore, m.type = "image" ∨ m.type = "audio") ∧
    (filterView sampleStore "image").length + (filterView sampleStore "audio").length =
      sampleStore.length ∧
    (filterView sampleStore "image" ++ filterView sampleStore "audio").Perm sampleStore :=
  have htypes : ∀ m ∈ sampleStore, m.type = "image" ∨ m.type = "audio" := by decide
  have h := filterView_image_audio_partition sampleStore htypes
  ⟨htypes, h.2.2.2.2, h.2.2.2.1⟩

/-- C10: for every state and every kind, the filter view is a subsequence of
the store (same relative order); a marker is in it exactly when it is in the
store with type equal to the kind, as many times as in the store; every
subsequence of the store made of markers of that kind is a subsequence of the
view; the view computed by the effect depends on the store and the kind only;
and the effect leaves the store and the kind as they were. -/
theorem filterView_pure_subsequence {Num : Type} (st other : AppState Num) (kind : String) :
    (filterView st.markers kind).Sublist st.markers ∧
    (∀ m, m ∈ filterView st.markers kind ↔ m ∈ st.markers ∧ m.type = kind) ∧
    (∀ p : Marker Num → Bool, (∀ m, p m = true → m.type = kind) →
      (filterView st.markers kind).countP p = st.markers.countP p) ∧
    (∀ l : List (Marker Num), l.Sublist st.markers → (∀ m ∈ l, m.type = kind) →
      l.Sublist (filterView st.markers kind)) ∧
    (updateFilteredMarkers st).filteredMarkers = filterView st.markers st.filterType ∧
    (other.markers = st.markers → other.filterType = st.filterType →
      (updateFilteredMarkers other).filteredMarkers = (updateFilteredMarkers st).filteredMarkers) ∧
    (updateFilteredMarkers st).markers = st.markers ∧
    (updateFilteredMarkers st).filterType = st.filterType := by
  refine ⟨?_, mem_filterView st.markers kind, ?_, ?_, rfl, ?_, rfl, rfl⟩
  · exact List.filter_sublist st.markers
  · intro p hp
    unfold filterView
    rw [List.countP_filter]
    apply List.countP_congr
    intro m _
    by_cases hpm : p m = true
    · simp [hpm, hp m hpm]
    · simp [hpm]
  · intro l hl hkind
    have hfilter : l.filter (fun m => m.type == kind) = l := by
      rw [List.filter_eq_self]
      intro m hm
      simp [hkind m hm]
    rw [← hfilter]
    exact hl.filter _
  · intro hmarkers hkind
    simp [updateFilteredMarkers, hmarkers, hkind]

/-! ## A submission that fails -/

/-- C11: when the request or the parsing of its response throws, the call of
`sendToBackend` still ends with a state: the analysis shown is 'Error uploading
file.', that text is the only one spoken, the markers are those the call
started with (and so is the filter view computed from them), the request is
made once and not again, and `uploading` is false at the end. -/
theorem sendToBackend_upload_failure {Num : Type} (js : JsNumbers Num) (st : AppState Num)
    (file : Asset) (type message now : String) :
    (sendToBackend js st file type (.error message) now).1.analysis = "Error uploading file." ∧
    spokenTexts (sendToBackend js st file type (.error message) now).2 =
      ["Error uploading file."] ∧
    (sendToBackend js st file type (.error message) now).1.markers = st.markers ∧
    (updateFilteredMarkers (sendToBackend js st file type (.error message) now).1).filteredMarkers =
      filterView st.markers st.filterType ∧
    (fetchCalls (sendToBackend js st file type (.error message) now).2).length = 1 ∧
    (sendToBackend js st file type (.error message) now).2 =
      [.fetch ("http://<YOUR_BACKEND_IP_OR_DOMAIN>:3000/" ++ endpoint type) "POST"
          (buildFormData js st.location file type),
       .consoleError "Upload failed:" message,
       .speak "Error uploading file." none] ∧
    (sendToBackend js st file type (.error message) now).1.uploading = false := by
  refine ⟨rfl, rfl, rfl, rfl, rfl, rfl, rfl⟩

/-! ## `exportPDF` -/

/-- C12: `exportPDF` calls `Print.printToFileAsync` exactly when the store has
a marker. With no marker its only outward call is the alert 'No reports to
export.'. With a marker the first call, and the only one that prints, is given
the template with one block per marker of the store, in store order, each block
holding the title of the marker's type, its timestamp, its latitude and
longitude with five decimals and its analysis. A sharing call is made only when
the store has a marker, and the calls depend on the markers of the store only,
not on the filter or the filtered view. -/
theorem exportPDF_iff_store_nonempty {Num : Type} (toFixed : Num → Nat → String)
    (st other : AppState Num) (printed : Except String String) (shared : Except String Unit) :
    ((∃ html, ClientEffect.printToFileAsync html ∈ exportPDF toFixed st printed shared) ↔
      st.markers ≠ []) ∧
    (st.markers = [] → exportPDF toFixed st printed shared = [.alert "No reports to export."]) ∧
    (st.markers ≠ [] → ∃ rest : List ClientEffect,
      exportPDF toFixed st printed shared =
        .printToFileAsync
          ("\n      <html>\n        <head>\n          <style>\n            body \x7b font-family: Arial; padding: 20px; \x7d\n            h1 \x7b color: black; \x7d\n            .report \x7b\n              border-bottom: 1px solid #ccc;\n              margin-bottom: 20px;\n              padding-bottom: 10px;\n            \x7d\n            .title \x7b font-weight: bold; font-size: 18px; \x7d\n            .text \x7b margin: 4px 0; \x7d\n          </style>\n        </head>\n        <body>\n          <h1>Wildlife Sightings Report</h1>\n          " ++
          String.join (st.markers.map fun marker =>
            "\n            <div class=\"report\">\n              <div class=\"title\">" ++
            (if marker.type = "image" then "Image Report" else "Audio Report") ++
            "</div>\n              <div class=\"text\">🕒 " ++
            marker.timestamp ++
            "</div>\n              <div class=\"text\">📍 " ++
            toFixed marker.latitude 5 ++
            ", " ++
            toFixed marker.longitude 5 ++
            "</div>\n              <div class=\"text\">" ++
            marker.analysis ++
            "</div>\n            </div>\n          ") ++
          "\n        </body>\n      </html>\n    ") :: rest ∧
      ∀ html, ClientEffect.printToFileAsync html ∉ rest) ∧
    (∀ uri, ClientEffect.shareAsync uri ∈ exportPDF toFixed st printed shared →
      st.markers ≠ []) ∧
    (other.markers = st.markers →
      exportPDF toFixed other printed shared = exportPDF toFixed st printed shared) := by
  by_cases hempty : st.markers = []
  · have hrun : exportPDF toFixed st printed shared = [.alert "No reports to export."] := by
      simp [exportPDF, hempty]
    refine ⟨?_, fun _ => hrun, fun h => absurd hempty h, ?_, ?_⟩
    · rw [hrun]
      simp [hempty]
    · intro uri huri
      rw [hrun] at huri
      simp at huri
    · intro hother
      unfold exportPDF
      rw [hother]
  · have hlength : ¬ st.markers.length = 0 := fun h => hempty (List.length_eq_zero.1 h)
    have hprint : ∃ rest : List ClientEffect,
        exportPDF toFixed st printed shared =
          .printToFileAsync (htmlContent toFixed st.markers) :: rest ∧
        ∀ html, ClientEffect.printToFileAsync html ∉ rest := by
      unfold exportPDF
      simp only [hlength, if_false]
      cases printed with
      | error message => exact ⟨_, rfl, by simp⟩
      | ok uri =>
        cases shared with
        | error message => exact ⟨_, rfl, by simp⟩
        | ok done => exact ⟨_, rfl, by simp⟩
    refine ⟨?_, fun h => absurd h hempty, fun _ => ?_, fun _ _ => hempty, ?_⟩
    · obtain ⟨rest, hrun, _⟩ := hprint
      rw [hrun]
      simp [hempty]
    · obtain ⟨rest, hrun, hrest⟩ := hprint
      exact ⟨rest, hrun, hrest⟩
    · intro hother
      unfold exportPDF
      rw [hother]

/-- C12 at the state of the first render, which has no marker, and at a state
with three markers whose filter shows one of them: the document printed holds
the three reports. -/
theorem exportPDF_iff_store_nonempty_witness :
    (initialState String).markers = [] ∧
    exportPDF toFixedText (initialState String) (.ok "file:///cache/report.pdf") (.ok ()) =
      [.alert "No reports to export."] ∧
    sampleState.markers ≠ [] ∧
    sampleState.filteredMarkers.length = 1 ∧
    (exportPDF toFixedText sampleState (.ok "file:///cache/report.pdf") (.ok ())).head? =
      some (.printToFileAsync
        ("\n" ++
         "      <html>\n" ++
         "        <head>\n" ++
         "          <style>\n" ++
         "            body \x7b font-family: Arial; padding: 20px; \x7d\n" ++
         "            h1 \x7b color: black; \x7d\n" ++
         "            .report \x7b\n" ++
         "              border-bottom: 1px solid #ccc;\n" ++
         "              margin-bottom: 20px;\n" ++
         "              padding-bottom: 10px;\n" ++
         "            \x7d\n" ++
         "            .title \x7b font-weight: bold; font-size: 18px; \x7d\n" ++
         "            .text \x7b margin: 4px 0; \x7d\n" ++
         "          </style>\n" ++
         "        </head>\n" ++
         "        <body>\n" ++
         "          <h1>Wildlife Sightings Report</h1>\n" ++
         "          \n" ++
         "            <div class=\"report\">\n" ++
         "              <div class=\"title\">Image Report</div>\n" ++
         "              <div class=\"text\">🕒 11/4/2026, 9:15:00 AM</div>\n" ++
         "              <div class=\"text\">📍 12.50000, -3.25000</div>\n" ++
         "              <div class=\"text\">The animal is not in distress</div>\n" ++
         "            </div>\n" ++
         "          \n" ++
         "            <div class=\"report\">\n" ++
         "              <div class=\"title\">Audio Report</div>\n" ++
         "              <div class=\"text\">🕒 11/4/2026, 9:20:00 AM</div>\n" ++
         "              <div class=\"text\">📍 12.60000, -3.20000</div>\n" ++
         "              <div class=\"text\">This behavior is normal, no distress recognized.</div>\n" ++
         "            </div>\n" ++
         "          \n" ++
         "            <div class=\"report\">\n" ++
         "              <div class=\"title\">Image Report</div>\n" ++
         "              <div class=\"text\">🕒 11/4/2026, 9:40:00 AM</div>\n" ++
         "              <div class=\"text\">📍 12.70000, -3.10000</div>\n" ++
         "              <div class=\"text\">The animal is in distress!</div>\n" ++
         "            </div>\n" ++
         "          \n" ++
         "        </body>\n" ++
         "      </html>\n" ++
         "    ")) := by
  refine ⟨rfl,
    (exportPDF_iff_store_nonempty toFixedText (initialState String) (initialState String)
      (.ok "file:///cache/report.pdf") (.ok ())).2.1 rfl,
    by simp [sampleState, sampleStore], by decide, ?_⟩
  obtain ⟨rest, hrun, _⟩ :=
    (exportPDF_iff_store_nonempty toFixedText sampleState sampleState
      (.ok "file:///cache/report.pdf") (.ok ())).2.2.1 (by simp [sampleState, sampleStore])
  rw [hrun, List.head?_cons]
  simp [sampleState, sampleStore, toFixedText, String.join]

end PoachingDetection
